import Mathlib

/-!
Shallow embedding of the AmongUs Soroban contract
(src/amongus_contract/contracts/game/src/lib.rs) and verification of its
specification.

Modelling choices:
* 32-byte values (`BytesN<32>`: hashes, nullifiers) are `Nat`; the all-zero
  sentinel `BytesN::from_array(&env, &[0; 32])` is `0`.
* `Address` is `Nat`; `Symbol` (soroban short symbol) is `String`.
* `Map<Address, Player>` is an association list with unique keys
  (`mapGet` / `mapSet` reproduce soroban `Map::get` / `Map::set`).
* The instance storage is the `Store` record; `Option` fields model
  `get(key) -> Option<Value>`; `UsedNullifier(n)` keys are the list
  `usedNullifiers` (membership = key present).
* The external proof-verifier contract is an oracle parameter
  `V : Verifier`; `verify_zk_proof` returns `none` when the Verifier key
  is unset (the "verifier not configured" panic).
* `caller.require_auth()` is host-provided authentication and always
  succeeds in the model; `require_admin` keeps its storage checks.
* Every public operation returns `Store × Option String`: the storage as
  written at the moment the operation returned or panicked, together with
  the panic message if any.  Writes are applied eagerly, in source order,
  so failure atomicity ("a panic never follows a write") is a theorem
  about the code, not an assumption of the model.
* `u32` counters are `Nat`; all quantities involved are far below 2^32 in
  any run the claims discuss, so wrap-around is immaterial.
-/

namespace AmongUs

abbrev Bytes32 := Nat
abbrev Address := Nat
abbrev Symbol := String

structure Player where
  x : Nat
  y : Nat
  alive : Bool
  tasks_done : Nat
  player_hash : Bytes32
  role_hash : Bytes32
  voted_for_hash : Bytes32
  color : Symbol
  name : Symbol
deriving DecidableEq, Repr

structure GameConfig where
  max_players : Nat
  tasks_to_win : Nat
deriving DecidableEq, Repr

structure GameState where
  phase : Symbol
  round : Nat
  meeting_active : Bool
  impostor_count : Nat
  sabotage_active : Bool
  winner : Symbol
deriving DecidableEq, Repr

structure VoteInput where
  target_hash : Bytes32
  proof_hash : Bytes32
  nullifier : Bytes32
deriving DecidableEq, Repr

structure ProofInput where
  proof_hash : Bytes32
  nullifier : Bytes32
  public_inputs : List Bytes32
deriving DecidableEq, Repr

/-- The player roster (`Map<Address, Player>`), as an association list. -/
abbrev Players := List (Address × Player)

/-- `Map::get`. -/
def mapGet (ps : Players) (a : Address) : Option Player :=
  match ps with
  | [] => none
  | (b, p) :: rest => if b = a then some p else mapGet rest a

/-- `Map::set`: replace the entry for `a` if present, else append. -/
def mapSet (ps : Players) (a : Address) (p : Player) : Players :=
  match ps with
  | [] => [(a, p)]
  | (b, q) :: rest => if b = a then (b, p) :: rest else (b, q) :: mapSet rest a p

/-- The contract instance storage (`DataKey` -> value). -/
structure Store where
  admin : Option Address
  verifier : Option Address
  config : Option GameConfig
  gameState : Option GameState
  players : Option Players
  usedNullifiers : List Bytes32
deriving DecidableEq, Repr

/-- Storage before `init` (every key absent). -/
def Store.empty : Store := ⟨none, none, none, none, none, []⟩

/-- The external verifier contract: address, proof hash, public inputs -> bool. -/
abbrev Verifier := Address → Bytes32 → List Bytes32 → Bool

/-- Result of a public operation: storage as written so far, and the
panic message if the operation panicked. -/
abbrev Result := Store × Option String

def read_players (s : Store) : Players :=
  s.players.getD []

def write_players (s : Store) (ps : Players) : Store :=
  { s with players := some ps }

def read_config (s : Store) : GameConfig :=
  s.config.getD ⟨15, 40⟩

def write_config (s : Store) (c : GameConfig) : Store :=
  { s with config := some c }

def read_state (s : Store) : GameState :=
  s.gameState.getD ⟨"lobby", 0, false, 1, false, "none"⟩

def write_state (s : Store) (st : GameState) : Store :=
  { s with gameState := some st }

def count_alive (ps : Players) : Nat :=
  (ps.filter (fun q => q.2.alive)).length

def total_tasks (ps : Players) : Nat :=
  (ps.map (fun q => q.2.tasks_done)).sum

def set_winner (s : Store) (winner : Symbol) : Store :=
  write_state s { read_state s with winner := winner, phase := "ended", meeting_active := false }

/-- `ensure_not_ended`: the panic message, if any. -/
def ensure_not_ended (s : Store) : Option String :=
  if (read_state s).phase = "ended" then some "game already ended" else none

/-- `require_admin`: the panic message, if any (auth itself is host-provided). -/
def require_admin (s : Store) (caller : Address) : Option String :=
  match s.admin with
  | none => some "admin not set"
  | some a => if a = caller then none else some "not admin"

/-- `verify_zk_proof`: `none` when the Verifier key is unset (panic
"verifier not configured"), otherwise the external verdict. -/
def verify_zk_proof (V : Verifier) (s : Store) (proof_hash : Bytes32)
    (public_inputs : List Bytes32) : Option Bool :=
  match s.verifier with
  | none => none
  | some v => some (V v proof_hash public_inputs)

def init (s : Store) (admin : Address) (impostor_count : Nat) : Result :=
  if s.gameState.isSome then (s, some "already initialized")
  else
    let s1 := write_state s ⟨"lobby", 0, false, impostor_count, false, "none"⟩
    let s2 := write_config s1 ⟨15, 40⟩
    let s3 := { s2 with admin := some admin }
    (write_players s3 [], none)

def configure_game (s : Store) (caller : Address) (max_players tasks_to_win : Nat) : Result :=
  match require_admin s caller with
  | some e => (s, some e)
  | none =>
    if max_players < 4 then (s, some "max_players must be >= 4")
    else if tasks_to_win = 0 then (s, some "tasks_to_win must be > 0")
    else (write_config s ⟨max_players, tasks_to_win⟩, none)

def set_verifier (s : Store) (caller verifier : Address) : Result :=
  match require_admin s caller with
  | some e => (s, some e)
  | none => ({ s with verifier := some verifier }, none)

def set_phase (s : Store) (caller : Address) (phase : Symbol) : Result :=
  match require_admin s caller with
  | some e => (s, some e)
  | none => (write_state s { read_state s with phase := phase }, none)

def start_game (s : Store) (caller : Address) : Result :=
  match require_admin s caller with
  | some e => (s, some e)
  | none =>
    if (read_state s).phase ≠ "lobby" then (s, some "game already started")
    else if (read_players s).length < 4 then (s, some "need at least 4 players")
    else
      (write_state s { read_state s with
        phase := "playing", round := 1, meeting_active := false, winner := "none" }, none)

def join_game (s : Store) (player : Address) (color name : Symbol)
    (player_hash role_hash : Bytes32) : Result :=
  match ensure_not_ended s with
  | some e => (s, some e)
  | none =>
    if (read_state s).phase ≠ "lobby" then (s, some "joining only allowed in lobby")
    else if (read_players s).length ≥ (read_config s).max_players then (s, some "lobby is full")
    else if (mapGet (read_players s) player).isSome then (s, some "player already joined")
    else if (read_players s).any (fun q => q.2.player_hash == player_hash) then
      (s, some "duplicate player hash")
    else
      (write_players s
        (mapSet (read_players s) player ⟨0, 0, true, 0, player_hash, role_hash, 0, color, name⟩),
       none)

def submit_move (s : Store) (player : Address) (x y : Nat) : Result :=
  match ensure_not_ended s with
  | some e => (s, some e)
  | none =>
    if (read_state s).phase ≠ "playing" then (s, some "movement not allowed in current phase")
    else
      match mapGet (read_players s) player with
      | none => (s, some "player not found")
      | some entry =>
        if !entry.alive then (s, some "dead player cannot move")
        else
          (write_players s (mapSet (read_players s) player { entry with x := x, y := y }), none)

/-- Clearing every living player's vote at meeting start. -/
def clear_alive_votes (ps : Players) : Players :=
  ps.map (fun q => if q.2.alive then (q.1, { q.2 with voted_for_hash := 0 }) else q)

def start_meeting (s : Store) (caller : Address) : Result :=
  match ensure_not_ended s with
  | some e => (s, some e)
  | none =>
    match mapGet (read_players s) caller with
    | none => (s, some "caller not found")
    | some caller_entry =>
      if !caller_entry.alive then (s, some "dead player cannot start meeting")
      else
        if (read_state s).phase ≠ "playing" then
          (s, some "meeting can only be started while playing")
        else
          let s1 := write_players s (clear_alive_votes (read_players s))
          (write_state s1 { read_state s with
            phase := "meeting", meeting_active := true, round := (read_state s).round + 1 }, none)

def end_meeting (s : Store) (caller : Address) : Result :=
  match require_admin s caller with
  | some e => (s, some e)
  | none =>
    if (read_state s).phase ≠ "meeting" then (s, some "meeting not active")
    else (write_state s { read_state s with phase := "playing", meeting_active := false }, none)

/-- Votes for the target among currently alive players (the tally loop). -/
def votes_for_target (ps : Players) (target : Bytes32) : Nat :=
  (ps.filter (fun q => q.2.alive && q.2.voted_for_hash == target)).length

/-- Mark dead the first living roster entry whose player hash matches
(the ejection loop's `break` after the first hit). -/
def eject_first (ps : Players) (target : Bytes32) : Players :=
  match ps with
  | [] => []
  | (a, p) :: rest =>
    if p.alive && p.player_hash == target then (a, { p with alive := false }) :: rest
    else (a, p) :: eject_first rest target

def finalize_meeting (s : Store) (caller : Address) (ejected_player_hash : Bytes32) : Result :=
  match require_admin s caller with
  | some e => (s, some e)
  | none =>
    if (read_state s).phase ≠ "meeting" then (s, some "meeting not active")
    else if count_alive (read_players s) = 0 then (s, some "no alive voters")
    else
      let ps :=
        if votes_for_target (read_players s) ejected_player_hash * 2 >
            count_alive (read_players s) then
          eject_first (read_players s) ejected_player_hash
        else read_players s
      let s1 := write_players s ps
      (write_state s1 { read_state s with phase := "playing", meeting_active := false }, none)

/-- Recording a consumed nullifier (`set(&UsedNullifier(n), &true)`). -/
def consume_nullifier (s : Store) (n : Bytes32) : Store :=
  { s with usedNullifiers := n :: s.usedNullifiers }

def submit_vote (V : Verifier) (s : Store) (voter : Address) (vote : VoteInput) : Result :=
  match ensure_not_ended s with
  | some e => (s, some e)
  | none =>
    if (read_state s).phase ≠ "meeting" then (s, some "voting not allowed in current phase")
    else if s.usedNullifiers.contains vote.nullifier then (s, some "nullifier already used")
    else
      match mapGet (read_players s) voter with
      | none => (s, some "player not found")
      | some entry =>
        if !entry.alive then (s, some "dead player cannot vote")
        else if entry.voted_for_hash ≠ 0 then (s, some "player already voted")
        else
          match verify_zk_proof V s vote.proof_hash [vote.nullifier] with
          | none => (s, some "verifier not configured")
          | some false => (s, some "invalid vote proof")
          | some true =>
            let s1 := write_players s
              (mapSet (read_players s) voter { entry with voted_for_hash := vote.target_hash })
            (consume_nullifier s1 vote.nullifier, none)

def submit_task_proof (V : Verifier) (s : Store) (player : Address) (proof : ProofInput) : Result :=
  match ensure_not_ended s with
  | some e => (s, some e)
  | none =>
    if (read_state s).phase ≠ "playing" then
      (s, some "task submission not allowed in current phase")
    else if s.usedNullifiers.contains proof.nullifier then (s, some "task nullifier already used")
    else
      match mapGet (read_players s) player with
      | none => (s, some "player not found")
      | some entry =>
        if !entry.alive then (s, some "dead player cannot submit tasks")
        else
          match verify_zk_proof V s proof.proof_hash (proof.public_inputs ++ [proof.nullifier]) with
          | none => (s, some "verifier not configured")
          | some false => (s, some "invalid task proof")
          | some true =>
            let ps := mapSet (read_players s) player
              { entry with tasks_done := entry.tasks_done + 1 }
            let s1 := consume_nullifier (write_players s ps) proof.nullifier
            if total_tasks ps ≥ (read_config s1).tasks_to_win then
              (set_winner s1 "crew", none)
            else (s1, none)

def submit_kill_proof (V : Verifier) (s : Store) (killer victim : Address)
    (proof : ProofInput) : Result :=
  match ensure_not_ended s with
  | some e => (s, some e)
  | none =>
    if (read_state s).phase ≠ "playing" then (s, some "kills not allowed in current phase")
    else if s.usedNullifiers.contains proof.nullifier then (s, some "kill nullifier already used")
    else
      match mapGet (read_players s) killer with
      | none => (s, some "killer not found")
      | some killer_entry =>
        if !killer_entry.alive then (s, some "dead player cannot kill")
        else
          match mapGet (read_players s) victim with
          | none => (s, some "victim not found")
          | some victim_entry =>
            if !victim_entry.alive then (s, some "victim already dead")
            else
              match verify_zk_proof V s proof.proof_hash
                  (proof.public_inputs ++ [proof.nullifier]) with
              | none => (s, some "verifier not configured")
              | some false => (s, some "invalid kill proof")
              | some true =>
                let ps := mapSet (read_players s) victim { victim_entry with alive := false }
                let s1 := consume_nullifier (write_players s ps) proof.nullifier
                if count_alive ps ≤ (read_state s).impostor_count then
                  (set_winner s1 "impost", none)
                else (s1, none)

def submit_impostor_win_proof (V : Verifier) (s : Store) (caller : Address)
    (proof : ProofInput) : Result :=
  match ensure_not_ended s with
  | some e => (s, some e)
  | none =>
    if s.usedNullifiers.contains proof.nullifier then
      (s, some "impostor nullifier already used")
    else
      match verify_zk_proof V s proof.proof_hash (proof.public_inputs ++ [proof.nullifier]) with
      | none => (s, some "verifier not configured")
      | some false => (s, some "invalid impostor win proof")
      | some true =>
        (set_winner (consume_nullifier s proof.nullifier) "impost", none)

def end_game_admin (s : Store) (caller : Address) (winner : Symbol) : Result :=
  match require_admin s caller with
  | some e => (s, some e)
  | none =>
    if winner ≠ "crew" ∧ winner ≠ "impost" then (s, some "invalid winner symbol")
    else (set_winner s winner, none)

def get_players (s : Store) : Players :=
  read_players s

def get_config (s : Store) : GameConfig :=
  read_config s

def get_game_state (s : Store) : GameState :=
  read_state s

/-- The state-mutating public action surface, with its arguments. -/
inductive Op where
  | opInit (admin : Address) (impostor_count : Nat)
  | opConfigureGame (caller : Address) (max_players tasks_to_win : Nat)
  | opSetVerifier (caller verifier : Address)
  | opSetPhase (caller : Address) (phase : Symbol)
  | opStartGame (caller : Address)
  | opJoinGame (player : Address) (color name : Symbol) (player_hash role_hash : Bytes32)
  | opSubmitMove (player : Address) (x y : Nat)
  | opStartMeeting (caller : Address)
  | opEndMeeting (caller : Address)
  | opFinalizeMeeting (caller : Address) (ejected_player_hash : Bytes32)
  | opSubmitVote (voter : Address) (vote : VoteInput)
  | opSubmitTaskProof (player : Address) (proof : ProofInput)
  | opSubmitKillProof (killer victim : Address) (proof : ProofInput)
  | opSubmitImpostorWinProof (caller : Address) (proof : ProofInput)
  | opEndGameAdmin (caller : Address) (winner : Symbol)
deriving DecidableEq, Repr

def applyOp (V : Verifier) (o : Op) (s : Store) : Result :=
  match o with
  | .opInit a k => init s a k
  | .opConfigureGame c mp tw => configure_game s c mp tw
  | .opSetVerifier c v => set_verifier s c v
  | .opSetPhase c ph => set_phase s c ph
  | .opStartGame c => start_game s c
  | .opJoinGame p c n ph rh => join_game s p c n ph rh
  | .opSubmitMove p x y => submit_move s p x y
  | .opStartMeeting c => start_meeting s c
  | .opEndMeeting c => end_meeting s c
  | .opFinalizeMeeting c h => finalize_meeting s c h
  | .opSubmitVote v vi => submit_vote V s v vi
  | .opSubmitTaskProof p pr => submit_task_proof V s p pr
  | .opSubmitKillProof k v pr => submit_kill_proof V s k v pr
  | .opSubmitImpostorWinProof c pr => submit_impostor_win_proof V s c pr
  | .opEndGameAdmin c w => end_game_admin s c w

/-- States reachable from the uninitialized store by public operations
(each call may see an arbitrary external-verifier behaviour). -/
inductive Reachable : Store → Prop where
  | empty : Reachable Store.empty
  | step : ∀ {s : Store} (V : Verifier) (o : Op), Reachable s → Reachable (applyOp V o s).1

/-- The GameState invariant of the specification. -/
def GameInv (s : Store) : Prop :=
  ((read_state s).phase = "ended" → (read_state s).winner ≠ "none") ∧
  ((read_state s).phase = "meeting" → (read_state s).meeting_active = true)

instance : DecidablePred GameInv := fun s => by
  unfold GameInv
  infer_instance

/-- A verifier that accepts everything (used for concrete runs). -/
def trueVerifier : Verifier := fun _ _ _ => true

/-! ### Frame lemmas for the storage helpers -/

@[simp]
theorem read_players_write_players (s : Store) (ps : Players) :
    read_players (write_players s ps) = ps := rfl

@[simp]
theorem read_players_write_state (s : Store) (st : GameState) :
    read_players (write_state s st) = read_players s := rfl

@[simp]
theorem read_players_write_config (s : Store) (c : GameConfig) :
    read_players (write_config s c) = read_players s := rfl

@[simp]
theorem read_players_consume (s : Store) (n : Bytes32) :
    read_players (consume_nullifier s n) = read_players s := rfl

@[simp]
theorem read_players_set_winner (s : Store) (w : Symbol) :
    read_players (set_winner s w) = read_players s := rfl

@[simp]
theorem read_state_write_state (s : Store) (st : GameState) :
    read_state (write_state s st) = st := rfl

@[simp]
theorem read_state_write_players (s : Store) (ps : Players) :
    read_state (write_players s ps) = read_state s := rfl

@[simp]
theorem read_state_write_config (s : Store) (c : GameConfig) :
    read_state (write_config s c) = read_state s := rfl

@[simp]
theorem read_state_consume (s : Store) (n : Bytes32) :
    read_state (consume_nullifier s n) = read_state s := rfl

@[simp]
theorem read_config_write_players (s : Store) (ps : Players) :
    read_config (write_players s ps) = read_config s := rfl

@[simp]
theorem read_config_write_state (s : Store) (st : GameState) :
    read_config (write_state s st) = read_config s := rfl

@[simp]
theorem read_config_consume (s : Store) (n : Bytes32) :
    read_config (consume_nullifier s n) = read_config s := rfl

@[simp]
theorem read_config_set_winner (s : Store) (w : Symbol) :
    read_config (set_winner s w) = read_config s := rfl

@[simp]
theorem set_winner_phase (s : Store) (w : Symbol) :
    (read_state (set_winner s w)).phase = "ended" := rfl

@[simp]
theorem set_winner_winner (s : Store) (w : Symbol) :
    (read_state (set_winner s w)).winner = w := rfl

@[simp]
theorem usedNullifiers_write_players (s : Store) (ps : Players) :
    (write_players s ps).usedNullifiers = s.usedNullifiers := rfl

@[simp]
theorem usedNullifiers_write_state (s : Store) (st : GameState) :
    (write_state s st).usedNullifiers = s.usedNullifiers := rfl

@[simp]
theorem usedNullifiers_write_config (s : Store) (c : GameConfig) :
    (write_config s c).usedNullifiers = s.usedNullifiers := rfl

@[simp]
theorem usedNullifiers_set_winner (s : Store) (w : Symbol) :
    (set_winner s w).usedNullifiers = s.usedNullifiers := rfl

@[simp]
theorem usedNullifiers_consume (s : Store) (n : Bytes32) :
    (consume_nullifier s n).usedNullifiers = n :: s.usedNullifiers := rfl

/-! ### Association-list lemmas -/

theorem mapGet_mapSet (ps : Players) (a : Address) (p : Player) :
    mapGet (mapSet ps a p) a = some p := by
  induction ps with
  | nil => simp [mapGet, mapSet]
  | cons hd tl ih =>
    by_cases hba : hd.1 = a
    · simp [mapGet, mapSet, hba]
    · simpa [mapGet, mapSet, hba] using ih

theorem mapSet_eq_append (ps : Players) (a : Address) (p : Player)
    (h : mapGet ps a = none) : mapSet ps a p = ps ++ [(a, p)] := by
  induction ps with
  | nil => rfl
  | cons hd tl ih =>
    by_cases hba : hd.1 = a
    · simp [mapGet, hba] at h
    · simp only [mapGet, hba, if_neg, ite_false] at h
      simp [mapSet, hba, ih h]

/-! ### Atomicity of each public operation: every branch either leaves the
storage exactly as it was, or returns without a panic.  (In the source, no
storage write ever precedes a possible panic.) -/

theorem init_atomic (s : Store) (a : Address) (k : Nat) :
    (init s a k).1 = s ∨ (init s a k).2 = none := by
  unfold init ; (repeat' split) <;> (first | (left ; rfl) | (right ; rfl))

theorem configure_game_atomic (s : Store) (c : Address) (mp tw : Nat) :
    (configure_game s c mp tw).1 = s ∨ (configure_game s c mp tw).2 = none := by
  unfold configure_game ; (repeat' split) <;> (first | (left ; rfl) | (right ; rfl))

theorem set_verifier_atomic (s : Store) (c v : Address) :
    (set_verifier s c v).1 = s ∨ (set_verifier s c v).2 = none := by
  unfold set_verifier ; (repeat' split) <;> (first | (left ; rfl) | (right ; rfl))

theorem set_phase_atomic (s : Store) (c : Address) (ph : Symbol) :
    (set_phase s c ph).1 = s ∨ (set_phase s c ph).2 = none := by
  unfold set_phase ; (repeat' split) <;> (first | (left ; rfl) | (right ; rfl))

theorem start_game_atomic (s : Store) (c : Address) :
    (start_game s c).1 = s ∨ (start_game s c).2 = none := by
  unfold start_game ; (repeat' split) <;> (first | (left ; rfl) | (right ; rfl))

theorem join_game_atomic (s : Store) (p : Address) (c n : Symbol) (ph rh : Bytes32) :
    (join_game s p c n ph rh).1 = s ∨ (join_game s p c n ph rh).2 = none := by
  unfold join_game ; (repeat' split) <;> (first | (left ; rfl) | (right ; rfl))

theorem submit_move_atomic (s : Store) (p : Address) (x y : Nat) :
    (submit_move s p x y).1 = s ∨ (submit_move s p x y).2 = none := by
  unfold submit_move ; (repeat' split) <;> (first | (left ; rfl) | (right ; rfl))

theorem start_meeting_atomic (s : Store) (c : Address) :
    (start_meeting s c).1 = s ∨ (start_meeting s c).2 = none := by
  unfold start_meeting ; (repeat' split) <;> (first | (left ; rfl) | (right ; rfl))

theorem end_meeting_atomic (s : Store) (c : Address) :
    (end_meeting s c).1 = s ∨ (end_meeting s c).2 = none := by
  unfold end_meeting ; (repeat' split) <;> (first | (left ; rfl) | (right ; rfl))

theorem finalize_meeting_atomic (s : Store) (c : Address) (t : Bytes32) :
    (finalize_meeting s c t).1 = s ∨ (finalize_meeting s c t).2 = none := by
  unfold finalize_meeting ; (repeat' split) <;> (first | (left ; rfl) | (right ; rfl))

theorem submit_vote_atomic (V : Verifier) (s : Store) (a : Address) (v : VoteInput) :
    (submit_vote V s a v).1 = s ∨ (submit_vote V s a v).2 = none := by
  unfold submit_vote ; (repeat' split) <;> (first | (left ; rfl) | (right ; rfl))

theorem submit_task_proof_atomic (V : Verifier) (s : Store) (a : Address) (p : ProofInput) :
    (submit_task_proof V s a p).1 = s ∨ (submit_task_proof V s a p).2 = none := by
  unfold submit_task_proof
  (repeat' split) <;>
    (first | (left ; rfl) | (right ; rfl) | (right ; dsimp only [] ; split <;> rfl))

theorem submit_kill_proof_atomic (V : Verifier) (s : Store) (k v : Address) (p : ProofInput) :
    (submit_kill_proof V s k v p).1 = s ∨ (submit_kill_proof V s k v p).2 = none := by
  unfold submit_kill_proof
  (repeat' split) <;>
    (first | (left ; rfl) | (right ; rfl) | (right ; dsimp only [] ; split <;> rfl))

theorem submit_impostor_win_proof_atomic (V : Verifier) (s : Store) (c : Address)
    (p : ProofInput) :
    (submit_impostor_win_proof V s c p).1 = s ∨ (submit_impostor_win_proof V s c p).2 = none := by
  unfold submit_impostor_win_proof ; (repeat' split) <;> (first | (left ; rfl) | (right ; rfl))

theorem end_game_admin_atomic (s : Store) (c : Address) (w : Symbol) :
    (end_game_admin s c w).1 = s ∨ (end_game_admin s c w).2 = none := by
  unfold end_game_admin ; (repeat' split) <;> (first | (left ; rfl) | (right ; rfl))

theorem atomic_of_cases {r : Result} {s : Store} (hc : r.1 = s ∨ r.2 = none)
    (h : (r.2).isSome) : r.1 = s := by
  rcases hc with h1 | h1
  · exact h1
  · rw [h1] at h
    exact absurd h (by simp)

/-- C6: every public operation is atomic on failure: whenever a call panics
(unmet precondition, unknown player, replayed nullifier, or rejected proof),
the storage after the call — game state, roster, config, and nullifier set —
is exactly the storage before it.  The model applies writes eagerly, so this
certifies that in the source no write ever precedes a panic. -/
theorem failed_operation_leaves_store_unchanged (V : Verifier) (o : Op) (s : Store)
    (h : ((applyOp V o s).2).isSome) : (applyOp V o s).1 = s := by
  cases o with
  | opInit a k => exact atomic_of_cases (init_atomic s a k) h
  | opConfigureGame c mp tw => exact atomic_of_cases (configure_game_atomic s c mp tw) h
  | opSetVerifier c v => exact atomic_of_cases (set_verifier_atomic s c v) h
  | opSetPhase c ph => exact atomic_of_cases (set_phase_atomic s c ph) h
  | opStartGame c => exact atomic_of_cases (start_game_atomic s c) h
  | opJoinGame p c n ph rh => exact atomic_of_cases (join_game_atomic s p c n ph rh) h
  | opSubmitMove p x y => exact atomic_of_cases (submit_move_atomic s p x y) h
  | opStartMeeting c => exact atomic_of_cases (start_meeting_atomic s c) h
  | opEndMeeting c => exact atomic_of_cases (end_meeting_atomic s c) h
  | opFinalizeMeeting c t => exact atomic_of_cases (finalize_meeting_atomic s c t) h
  | opSubmitVote a v => exact atomic_of_cases (submit_vote_atomic V s a v) h
  | opSubmitTaskProof a p => exact atomic_of_cases (submit_task_proof_atomic V s a p) h
  | opSubmitKillProof k v p => exact atomic_of_cases (submit_kill_proof_atomic V s k v p) h
  | opSubmitImpostorWinProof c p =>
    exact atomic_of_cases (submit_impostor_win_proof_atomic V s c p) h
  | opEndGameAdmin c w => exact atomic_of_cases (end_game_admin_atomic s c w) h

/-- Witness for C6: `start_game` on the uninitialized store panics
("admin not set") and leaves the store unchanged. -/
theorem failed_operation_witness :
    (applyOp trueVerifier (.opStartGame 0) Store.empty).1 = Store.empty :=
  failed_operation_leaves_store_unchanged trueVerifier (.opStartGame 0) Store.empty (by decide)

/-! ### Preservation of the GameState invariant, operation by operation -/

theorem init_preserves_inv (s : Store) (a : Address) (k : Nat) (h : GameInv s) :
    GameInv (init s a k).1 := by
  unfold init
  (repeat' split) <;>
    (first
      | exact h
      | (dsimp only [GameInv, read_state, write_players, write_config, write_state,
          set_winner, consume_nullifier, Option.getD] ; simp))

theorem configure_game_preserves_inv (s : Store) (c : Address) (mp tw : Nat) (h : GameInv s) :
    GameInv (configure_game s c mp tw).1 := by
  unfold configure_game
  (repeat' split) <;> exact h

theorem set_verifier_preserves_inv (s : Store) (c v : Address) (h : GameInv s) :
    GameInv (set_verifier s c v).1 := by
  unfold set_verifier
  (repeat' split) <;> exact h

theorem start_game_preserves_inv (s : Store) (c : Address) (h : GameInv s) :
    GameInv (start_game s c).1 := by
  unfold start_game
  (repeat' split) <;>
    (first
      | exact h
      | (dsimp only [GameInv, read_state, write_players, write_config, write_state,
          set_winner, consume_nullifier, Option.getD] ; simp))

theorem join_game_preserves_inv (s : Store) (p : Address) (c n : Symbol) (ph rh : Bytes32)
    (h : GameInv s) : GameInv (join_game s p c n ph rh).1 := by
  unfold join_game
  (repeat' split) <;> exact h

theorem submit_move_preserves_inv (s : Store) (p : Address) (x y : Nat) (h : GameInv s) :
    GameInv (submit_move s p x y).1 := by
  unfold submit_move
  (repeat' split) <;> exact h

theorem start_meeting_preserves_inv (s : Store) (c : Address) (h : GameInv s) :
    GameInv (start_meeting s c).1 := by
  unfold start_meeting
  (repeat' split) <;>
    (first
      | exact h
      | (dsimp only [GameInv, read_state, write_players, write_config, write_state,
          set_winner, consume_nullifier, Option.getD] ; simp))

theorem end_meeting_preserves_inv (s : Store) (c : Address) (h : GameInv s) :
    GameInv (end_meeting s c).1 := by
  unfold end_meeting
  (repeat' split) <;>
    (first
      | exact h
      | (dsimp only [GameInv, read_state, write_players, write_config, write_state,
          set_winner, consume_nullifier, Option.getD] ; simp))

theorem finalize_meeting_preserves_inv (s : Store) (c : Address) (t : Bytes32) (h : GameInv s) :
    GameInv (finalize_meeting s c t).1 := by
  unfold finalize_meeting
  (repeat' split) <;>
    (first
      | exact h
      | (dsimp only [GameInv, read_state, write_players, write_config, write_state,
          set_winner, consume_nullifier, Option.getD] ; simp))

theorem submit_vote_preserves_inv (V : Verifier) (s : Store) (a : Address) (v : VoteInput)
    (h : GameInv s) : GameInv (submit_vote V s a v).1 := by
  unfold submit_vote
  (repeat' split) <;> exact h

theorem submit_task_proof_preserves_inv (V : Verifier) (s : Store) (a : Address)
    (p : ProofInput) (h : GameInv s) : GameInv (submit_task_proof V s a p).1 := by
  unfold submit_task_proof
  (repeat' split) <;>
    (first
      | exact h
      | (dsimp only [] ; split <;>
          first
            | exact h
            | (dsimp only [GameInv, read_state, write_players, write_config, write_state,
                set_winner, consume_nullifier, Option.getD] ; simp)))

theorem submit_kill_proof_preserves_inv (V : Verifier) (s : Store) (k v : Address)
    (p : ProofInput) (h : GameInv s) : GameInv (submit_kill_proof V s k v p).1 := by
  unfold submit_kill_proof
  (repeat' split) <;>
    (first
      | exact h
      | (dsimp only [] ; split <;>
          first
            | exact h
            | (dsimp only [GameInv, read_state, write_players, write_config, write_state,
                set_winner, consume_nullifier, Option.getD] ; simp)))

theorem submit_impostor_win_proof_preserves_inv (V : Verifier) (s : Store) (c : Address)
    (p : ProofInput) (h : GameInv s) : GameInv (submit_impostor_win_proof V s c p).1 := by
  unfold submit_impostor_win_proof
  (repeat' split) <;>
    (first
      | exact h
      | (dsimp only [GameInv, read_state, write_players, write_config, write_state,
          set_winner, consume_nullifier, Option.getD] ; simp))

theorem end_game_admin_preserves_inv (s : Store) (c : Address) (w : Symbol) (h : GameInv s) :
    GameInv (end_game_admin s c w).1 := by
  unfold end_game_admin
  (repeat' split) <;> first | exact h | skip
  rename_i hw
  rw [Classical.not_and_iff_or_not_not, not_not, not_not] at hw
  constructor
  · intro _
    rcases hw with hw | hw <;> simp [set_winner, GameInv, read_state, write_state, hw]
  · intro hm
    exact absurd hm (by simp [set_winner, read_state, write_state])

/-- Is this operation the admin phase override? -/
def Op.isSetPhase : Op → Bool
  | .opSetPhase _ _ => true
  | _ => false

/-- C1 counterexample: a reachable state violating the GameState invariant.
After `init` (a public operation) the admin calls `set_phase` with the
symbol "ended"; the resulting state has `phase = ended` but
`winner = none`, so the claim that every public operation — including the
admin override `set_phase` — preserves the invariant is false. -/
theorem set_phase_reachably_breaks_invariant :
    Reachable
      (applyOp trueVerifier (.opSetPhase 0 "ended")
        (applyOp trueVerifier (.opInit 0 1) Store.empty).1).1 ∧
    ¬ GameInv
      (applyOp trueVerifier (.opSetPhase 0 "ended")
        (applyOp trueVerifier (.opInit 0 1) Store.empty).1).1 := by
  constructor
  · exact .step trueVerifier _ (.step trueVerifier _ .empty)
  · decide

/-- C1 (amended): the GameState invariant (`phase = ended` implies
`winner ≠ none`, and `phase = meeting` implies `meeting_active`) holds in
the initial storage and is preserved by every public operation except the
admin override `set_phase`, which can set an arbitrary phase and thereby
break it. -/
theorem game_invariant_preserved_except_set_phase :
    GameInv Store.empty ∧
    ∀ (V : Verifier) (o : Op) (s : Store),
      o.isSetPhase = false → GameInv s → GameInv (applyOp V o s).1 := by
  constructor
  · decide
  · intro V o s hno h
    cases o with
    | opInit a k => exact init_preserves_inv s a k h
    | opConfigureGame c mp tw => exact configure_game_preserves_inv s c mp tw h
    | opSetVerifier c v => exact set_verifier_preserves_inv s c v h
    | opSetPhase c ph => exact absurd hno (by simp [Op.isSetPhase])
    | opStartGame c => exact start_game_preserves_inv s c h
    | opJoinGame p c n ph rh => exact join_game_preserves_inv s p c n ph rh h
    | opSubmitMove p x y => exact submit_move_preserves_inv s p x y h
    | opStartMeeting c => exact start_meeting_preserves_inv s c h
    | opEndMeeting c => exact end_meeting_preserves_inv s c h
    | opFinalizeMeeting c t => exact finalize_meeting_preserves_inv s c t h
    | opSubmitVote a v => exact submit_vote_preserves_inv V s a v h
    | opSubmitTaskProof a p => exact submit_task_proof_preserves_inv V s a p h
    | opSubmitKillProof k v p => exact submit_kill_proof_preserves_inv V s k v p h
    | opSubmitImpostorWinProof c p => exact submit_impostor_win_proof_preserves_inv V s c p h
    | opEndGameAdmin c w => exact end_game_admin_preserves_inv s c w h

/-- Witness for C1 (amended): the invariant survives a concrete `init`. -/
theorem game_invariant_preserved_witness :
    GameInv (applyOp trueVerifier (.opInit 0 1) Store.empty).1 :=
  game_invariant_preserved_except_set_phase.2 trueVerifier (.opInit 0 1) Store.empty
    (by decide) (by decide)

/-! ### The nullifier guard -/

/-- The nullifier carried by a proof-gated submission, if any. -/
def Op.nullifierArg : Op → Option Bytes32
  | .opSubmitVote _ v => some v.nullifier
  | .opSubmitTaskProof _ p => some p.nullifier
  | .opSubmitKillProof _ _ p => some p.nullifier
  | .opSubmitImpostorWinProof _ p => some p.nullifier
  | _ => none

theorem submit_vote_used_fails (V : Verifier) (s : Store) (a : Address) (v : VoteInput)
    (h : v.nullifier ∈ s.usedNullifiers) : ((submit_vote V s a v).2).isSome := by
  unfold submit_vote ; (repeat' split) <;> simp_all

theorem submit_task_proof_used_fails (V : Verifier) (s : Store) (a : Address) (p : ProofInput)
    (h : p.nullifier ∈ s.usedNullifiers) : ((submit_task_proof V s a p).2).isSome := by
  unfold submit_task_proof ; (repeat' split) <;> simp_all

theorem submit_kill_proof_used_fails (V : Verifier) (s : Store) (k v : Address) (p : ProofInput)
    (h : p.nullifier ∈ s.usedNullifiers) : ((submit_kill_proof V s k v p).2).isSome := by
  unfold submit_kill_proof ; (repeat' split) <;> simp_all

theorem submit_impostor_win_proof_used_fails (V : Verifier) (s : Store) (c : Address)
    (p : ProofInput) (h : p.nullifier ∈ s.usedNullifiers) :
    ((submit_impostor_win_proof V s c p).2).isSome := by
  unfold submit_impostor_win_proof ; (repeat' split) <;> simp_all

theorem submit_vote_records_nullifier (V : Verifier) (s : Store) (a : Address) (v : VoteInput) :
    (submit_vote V s a v).2 = none → v.nullifier ∈ (submit_vote V s a v).1.usedNullifiers := by
  unfold submit_vote
  (repeat' split) <;>
    simp_all [consume_nullifier, write_players, write_state, write_config, set_winner]

theorem submit_task_proof_records_nullifier (V : Verifier) (s : Store) (a : Address)
    (p : ProofInput) :
    (submit_task_proof V s a p).2 = none →
    p.nullifier ∈ (submit_task_proof V s a p).1.usedNullifiers := by
  unfold submit_task_proof
  (repeat' split) <;>
    (first
      | (simp_all [consume_nullifier, write_players, write_state, write_config, set_winner]
         ; done)
      | (dsimp only [] ; split <;>
          simp_all [consume_nullifier, write_players, write_state, write_config, set_winner]))

theorem submit_kill_proof_records_nullifier (V : Verifier) (s : Store) (k v : Address)
    (p : ProofInput) :
    (submit_kill_proof V s k v p).2 = none →
    p.nullifier ∈ (submit_kill_proof V s k v p).1.usedNullifiers := by
  unfold submit_kill_proof
  (repeat' split) <;>
    (first
      | (simp_all [consume_nullifier, write_players, write_state, write_config, set_winner]
         ; done)
      | (dsimp only [] ; split <;>
          simp_all [consume_nullifier, write_players, write_state, write_config, set_winner]))

theorem submit_impostor_win_proof_records_nullifier (V : Verifier) (s : Store) (c : Address)
    (p : ProofInput) :
    (submit_impostor_win_proof V s c p).2 = none →
    p.nullifier ∈ (submit_impostor_win_proof V s c p).1.usedNullifiers := by
  unfold submit_impostor_win_proof
  (repeat' split) <;>
    simp_all [consume_nullifier, write_players, write_state, write_config, set_winner]

/-- No public operation ever removes a nullifier from the consumed set. -/
theorem applyOp_nullifier_mono (V : Verifier) (o : Op) (s : Store) (n : Bytes32)
    (h : n ∈ s.usedNullifiers) : n ∈ (applyOp V o s).1.usedNullifiers := by
  cases o <;>
    (simp only [applyOp, init, configure_game, set_verifier, set_phase, start_game, join_game,
       submit_move, start_meeting, end_meeting, finalize_meeting, submit_vote, submit_task_proof,
       submit_kill_proof, submit_impostor_win_proof, end_game_admin] ;
     (repeat' split) <;>
       (first
         | exact h
         | exact List.mem_cons_of_mem _ h
         | (dsimp only [] ; split <;>
             first | exact h | exact List.mem_cons_of_mem _ h)))

theorem applyOp_records_nullifier (V : Verifier) (o : Op) (s : Store) (n : Bytes32)
    (hn : o.nullifierArg = some n) (hsucc : (applyOp V o s).2 = none) :
    n ∈ (applyOp V o s).1.usedNullifiers := by
  cases o <;> simp only [Op.nullifierArg, Option.some.injEq, reduceCtorEq] at hn
  case opSubmitVote a v =>
    subst hn ; exact submit_vote_records_nullifier V s a v hsucc
  case opSubmitTaskProof a p =>
    subst hn ; exact submit_task_proof_records_nullifier V s a p hsucc
  case opSubmitKillProof k v p =>
    subst hn ; exact submit_kill_proof_records_nullifier V s k v p hsucc
  case opSubmitImpostorWinProof c p =>
    subst hn ; exact submit_impostor_win_proof_records_nullifier V s c p hsucc

theorem applyOp_used_nullifier_fails (V : Verifier) (o : Op) (s : Store) (n : Bytes32)
    (hn : o.nullifierArg = some n) (h : n ∈ s.usedNullifiers) :
    ((applyOp V o s).2).isSome := by
  cases o <;> simp only [Op.nullifierArg, Option.some.injEq, reduceCtorEq] at hn
  case opSubmitVote a v => subst hn ; exact submit_vote_used_fails V s a v h
  case opSubmitTaskProof a p => subst hn ; exact submit_task_proof_used_fails V s a p h
  case opSubmitKillProof k v p => subst hn ; exact submit_kill_proof_used_fails V s k v p h
  case opSubmitImpostorWinProof c p =>
    subst hn ; exact submit_impostor_win_proof_used_fails V s c p h

/-- Running a sequence of public operations, each against its own external
verifier behaviour, keeping the resulting storage of every call. -/
def applySeq (l : List (Verifier × Op)) (s : Store) : Store :=
  l.foldl (fun st vo => (applyOp vo.1 vo.2 st).1) s

theorem applySeq_nullifier_mono (l : List (Verifier × Op)) (s : Store) (n : Bytes32)
    (h : n ∈ s.usedNullifiers) : n ∈ (applySeq l s).usedNullifiers := by
  induction l generalizing s with
  | nil => exact h
  | cons hd tl ih => exact ih ((applyOp hd.1 hd.2 s).1) (applyOp_nullifier_mono hd.1 hd.2 s n h)

/-- C2: once a nullifier has been consumed by a successful call to any of
`submit_vote`, `submit_task_proof`, `submit_kill_proof` or
`submit_impostor_win_proof`, every later call to any of those four
operations carrying the same nullifier fails — after any interleaving of
further public operations, and regardless of the verifier's verdict on the
later proof (the freshness check precedes proof verification, and the
consumed set is shared across all four action kinds). -/
theorem consumed_nullifier_blocks_all_later_submissions
    (V : Verifier) (o : Op) (s : Store) (n : Bytes32)
    (hn : o.nullifierArg = some n) (hsucc : (applyOp V o s).2 = none)
    (l : List (Verifier × Op)) (V2 : Verifier) (o2 : Op)
    (hn2 : o2.nullifierArg = some n) :
    ((applyOp V2 o2 (applySeq l (applyOp V o s).1)).2).isSome :=
  applyOp_used_nullifier_fails V2 o2 _ n hn2
    (applySeq_nullifier_mono l _ n (applyOp_records_nullifier V o s n hn hsucc))

/-- A store holding only a configured verifier contract address. -/
def verifStore : Store := ⟨none, some 7, none, none, none, []⟩

/-- C3: `finalize_meeting`, called by the admin in phase Meeting, tallies the
alive players voting for the target against the count of alive players; it
panics when there are zero alive players; otherwise it ejects via
`eject_first` exactly when `votes_for_target * 2 > count_alive` (a tie does
not eject), and always returns to phase Playing with `meeting_active`
cleared, whether or not an ejection occurred. -/
theorem finalize_meeting_tally_characterization (s : Store) (caller : Address) (target : Bytes32)
    (hadmin : s.admin = some caller) (hphase : (read_state s).phase = "meeting") :
    (count_alive (read_players s) = 0 →
      finalize_meeting s caller target = (s, some "no alive voters")) ∧
    (count_alive (read_players s) ≠ 0 →
      finalize_meeting s caller target =
        (write_state
          (write_players s
            (if votes_for_target (read_players s) target * 2 > count_alive (read_players s)
             then eject_first (read_players s) target
             else read_players s))
          { read_state s with phase := "playing", meeting_active := false }, none)) := by
  constructor <;> intro h <;>
    simp [finalize_meeting, require_admin, hadmin, hphase, h]

/-- A concrete meeting in progress: admin 0, four alive players, three of
whom voted for the player committed to hash 22. -/
def meetingStore : Store :=
  ⟨some 0, some 7, none,
   some ⟨"meeting", 2, true, 1, false, "none"⟩,
   some [(1, ⟨0, 0, true, 0, 11, 1, 22, "Red", "P1"⟩),
         (2, ⟨0, 0, true, 0, 22, 2, 0, "Blu", "P2"⟩),
         (3, ⟨0, 0, true, 0, 33, 3, 22, "Gre", "P3"⟩),
         (4, ⟨0, 0, true, 0, 44, 4, 22, "Yel", "P4"⟩)],
   []⟩

/-- Witness for C3: with 3 of 4 alive votes on hash 22, `finalize_meeting`
takes the ejection branch and resumes play. -/
theorem finalize_meeting_tally_witness :
    finalize_meeting meetingStore 0 22 =
      (write_state
        (write_players meetingStore
          (if votes_for_target (read_players meetingStore) 22 * 2 >
              count_alive (read_players meetingStore)
           then eject_first (read_players meetingStore) 22
           else read_players meetingStore))
        { read_state meetingStore with phase := "playing", meeting_active := false }, none) :=
  (finalize_meeting_tally_characterization meetingStore 0 22 (by rfl) (by rfl)).2 (by decide)

/-- C4: after every successful `submit_task_proof`, the actor's task counter
is incremented first, and if the total of `tasks_done` over the whole roster
then reaches `tasks_to_win` the phase becomes Ended with winner Crew; after
every successful `submit_kill_proof`, the victim is marked dead first, and
if the count of alive players then drops to at most `impostor_count` the
phase becomes Ended with winner Impostor.  Both win conditions are evaluated
on the roster as it stands after the mutation. -/
theorem win_checks_after_mutation (V : Verifier) (s : Store) :
    (∀ (a : Address) (proof : ProofInput),
      (submit_task_proof V s a proof).2 = none →
      ((∀ e, mapGet (read_players s) a = some e →
        read_players (submit_task_proof V s a proof).1 =
          mapSet (read_players s) a { e with tasks_done := e.tasks_done + 1 }) ∧
      (total_tasks (read_players (submit_task_proof V s a proof).1) ≥
          (read_config s).tasks_to_win →
        (read_state (submit_task_proof V s a proof).1).phase = "ended" ∧
        (read_state (submit_task_proof V s a proof).1).winner = "crew"))) ∧
    (∀ (k v : Address) (proof : ProofInput),
      (submit_kill_proof V s k v proof).2 = none →
      ((∀ e, mapGet (read_players s) v = some e →
        read_players (submit_kill_proof V s k v proof).1 =
          mapSet (read_players s) v { e with alive := false }) ∧
      (count_alive (read_players (submit_kill_proof V s k v proof).1) ≤
          (read_state s).impostor_count →
        (read_state (submit_kill_proof V s k v proof).1).phase = "ended" ∧
        (read_state (submit_kill_proof V s k v proof).1).winner = "impost"))) := by
  constructor
  · intro a proof
    unfold submit_task_proof
    (repeat' split) <;>
      (first
        | (intro hsucc ; simp at hsucc ; done)
        | (dsimp only []
           split <;>
             (intro hs2
              refine ⟨fun e he => ?_, fun hwin => ?_⟩ <;>
                (first | exact ⟨rfl, rfl⟩ | (simp_all ; done) | omega | (simp_all ; omega)))))
  · intro k v proof
    unfold submit_kill_proof
    (repeat' split) <;>
      (first
        | (intro hsucc ; simp at hsucc ; done)
        | (dsimp only []
           split <;>
             (intro hs2
              refine ⟨fun e he => ?_, fun hwin => ?_⟩ <;>
                (first | exact ⟨rfl, rfl⟩ | (simp_all ; done) | omega | (simp_all ; omega)))))

/-- A concrete running game: admin 0, verifier 7, `tasks_to_win = 1`,
four alive players, phase Playing. -/
def playingStore : Store :=
  ⟨some 0, some 7, some ⟨15, 1⟩,
   some ⟨"playing", 1, false, 1, false, "none"⟩,
   some [(1, ⟨0, 0, true, 0, 11, 1, 0, "Red", "P1"⟩),
         (2, ⟨0, 0, true, 0, 22, 2, 0, "Blu", "P2"⟩),
         (3, ⟨0, 0, true, 0, 33, 3, 0, "Gre", "P3"⟩),
         (4, ⟨0, 0, true, 0, 44, 4, 0, "Yel", "P4"⟩)],
   []⟩

/-- Witness for C4: with `tasks_to_win = 1`, one accepted task proof makes
the total reach the threshold and ends the game for Crew. -/
theorem win_checks_after_mutation_witness :
    (read_state (submit_task_proof trueVerifier playingStore 1 ⟨5, 9, []⟩).1).phase = "ended" ∧
    (read_state (submit_task_proof trueVerifier playingStore 1 ⟨5, 9, []⟩).1).winner = "crew" :=
  ((win_checks_after_mutation trueVerifier playingStore).1 1 ⟨5, 9, []⟩ (by decide)).2 (by decide)

/-- C5: `submit_impostor_win_proof` fails whenever the phase is Ended, and in
every other phase an accepted proof with a fresh nullifier unconditionally
sets winner Impostor and phase Ended while leaving every roster entry
unchanged — no alive-count versus `impostor_count` comparison is involved. -/
theorem impostor_win_proof_unconditional (V : Verifier) (s : Store) (c : Address)
    (proof : ProofInput) :
    ((read_state s).phase = "ended" → ((submit_impostor_win_proof V s c proof).2).isSome) ∧
    (∀ w, (read_state s).phase ≠ "ended" → proof.nullifier ∉ s.usedNullifiers →
      s.verifier = some w →
      V w proof.proof_hash (proof.public_inputs ++ [proof.nullifier]) = true →
      (submit_impostor_win_proof V s c proof =
        (set_winner (consume_nullifier s proof.nullifier) "impost", none) ∧
       read_players (submit_impostor_win_proof V s c proof).1 = read_players s ∧
       (read_state (submit_impostor_win_proof V s c proof).1).phase = "ended" ∧
       (read_state (submit_impostor_win_proof V s c proof).1).winner = "impost")) := by
  constructor
  · intro hphase
    simp [submit_impostor_win_proof, ensure_not_ended, hphase]
  · intro w h1 h2 h3 h4
    have heqn : submit_impostor_win_proof V s c proof =
        (set_winner (consume_nullifier s proof.nullifier) "impost", none) := by
      simp [submit_impostor_win_proof, ensure_not_ended, h1, h2, verify_zk_proof, h3, h4]
    refine ⟨heqn, ?_, ?_, ?_⟩ <;> (rw [heqn] ; rfl)

/-- A game that has already ended (admin 0, winner crew). -/
def endedStore : Store :=
  ⟨some 0, none, none, some ⟨"ended", 3, false, 1, false, "crew"⟩, some [], []⟩

/-- C7 counterexample: the admin operation `configure_game` is not guarded by
the ended check — called while `phase = ended` it succeeds and rewrites the
stored configuration, refuting the claim that every state-mutating public
action fails with the "already ended" condition once the game has ended. -/
theorem configure_game_succeeds_after_end :
    (read_state endedStore).phase = "ended" ∧
    (configure_game endedStore 0 5 10).2 = none ∧
    read_config (configure_game endedStore 0 5 10).1 = ⟨5, 10⟩ := by decide

/-- C7 (amended): while `phase = ended`, the seven gameplay actions guarded
by `ensure_not_ended` (`join_game`, `submit_move`, `start_meeting`,
`submit_vote`, `submit_task_proof`, `submit_kill_proof`,
`submit_impostor_win_proof`) fail with exactly the "game already ended"
condition; `start_game`, `end_meeting` and `finalize_meeting` also always
fail, but through their own phase checks ("game already started" /
"meeting not active") or the admin check, and `init` always fails with
"already initialized" (the phase can only read ended when the GameState key
exists) — none of them with the "already ended" condition; the remaining
admin operations (`configure_game`, `set_verifier`, `set_phase`,
`end_game_admin`) carry no ended guard at all and can succeed. -/
theorem ended_guard_characterization (V : Verifier) (s : Store)
    (hphase : (read_state s).phase = "ended") :
    (∀ p c n ph rh, join_game s p c n ph rh = (s, some "game already ended")) ∧
    (∀ p x y, submit_move s p x y = (s, some "game already ended")) ∧
    (∀ c, start_meeting s c = (s, some "game already ended")) ∧
    (∀ a v, submit_vote V s a v = (s, some "game already ended")) ∧
    (∀ a pr, submit_task_proof V s a pr = (s, some "game already ended")) ∧
    (∀ k v pr, submit_kill_proof V s k v pr = (s, some "game already ended")) ∧
    (∀ c pr, submit_impostor_win_proof V s c pr = (s, some "game already ended")) ∧
    (∀ c, ((start_game s c).2).isSome) ∧
    (∀ c, ((end_meeting s c).2).isSome) ∧
    (∀ c t, ((finalize_meeting s c t).2).isSome) ∧
    (∀ a k, init s a k = (s, some "already initialized")) := by
  have hs : s.gameState.isSome = true := by
    cases h : s.gameState with
    | none =>
      rw [read_state, h] at hphase
      exact absurd hphase (by decide)
    | some st => simp
  refine ⟨?_, ?_, ?_, ?_, ?_, ?_, ?_, ?_, ?_, ?_, ?_⟩ <;> intros
  · simp [join_game, ensure_not_ended, hphase]
  · simp [submit_move, ensure_not_ended, hphase]
  · simp [start_meeting, ensure_not_ended, hphase]
  · simp [submit_vote, ensure_not_ended, hphase]
  · simp [submit_task_proof, ensure_not_ended, hphase]
  · simp [submit_kill_proof, ensure_not_ended, hphase]
  · simp [submit_impostor_win_proof, ensure_not_ended, hphase]
  · unfold start_game ; (repeat' split) <;> simp_all
  · unfold end_meeting ; (repeat' split) <;> simp_all
  · unfold finalize_meeting ; (repeat' split) <;> simp_all
  · unfold init ; simp [hs]

/-- Witness for C7 (amended): joining an ended game fails with the
"game already ended" condition. -/
theorem ended_guard_witness :
    join_game endedStore 5 "Red" "P5" 55 5 = (endedStore, some "game already ended") :=
  (ended_guard_characterization trueVerifier endedStore (by rfl)).1 5 "Red" "P5" 55 5

/-- C8 counterexample: `submit_kill_proof` never compares victim and killer,
so in a playing game a call whose victim address equals the killer address
succeeds once the proof is accepted, and marks the caller dead — refuting
the claim that the victim must be distinct from the actor. -/
theorem self_kill_succeeds :
    (submit_kill_proof trueVerifier playingStore 1 1 ⟨5, 9, []⟩).2 = none ∧
    Option.map Player.alive
      (mapGet (read_players (submit_kill_proof trueVerifier playingStore 1 1 ⟨5, 9, []⟩).1) 1) =
      some false := by decide

/-- C8 (amended): `submit_kill_proof` requires the actor to be alive and the
victim to be alive (failing otherwise), but imposes no distinctness: when
the victim address equals the killer address and the other preconditions
hold with an accepted proof, the call succeeds and the caller's own roster
entry is marked dead. -/
theorem kill_preconditions_characterization (V : Verifier) (s : Store) :
    (∀ k v proof e, mapGet (read_players s) k = some e → e.alive = false →
       ((submit_kill_proof V s k v proof).2).isSome) ∧
    (∀ k v proof e, mapGet (read_players s) v = some e → e.alive = false →
       ((submit_kill_proof V s k v proof).2).isSome) ∧
    (∀ k proof e w, (read_state s).phase = "playing" → proof.nullifier ∉ s.usedNullifiers →
       mapGet (read_players s) k = some e → e.alive = true → s.verifier = some w →
       V w proof.proof_hash (proof.public_inputs ++ [proof.nullifier]) = true →
       ((submit_kill_proof V s k k proof).2 = none ∧
        Option.map Player.alive
          (mapGet (read_players (submit_kill_proof V s k k proof).1) k) = some false)) := by
  refine ⟨?_, ?_, ?_⟩
  · intro k v proof e he halive
    unfold submit_kill_proof ; (repeat' split) <;> simp_all
  · intro k v proof e he halive
    unfold submit_kill_proof ; (repeat' split) <;> simp_all
  · intro k proof e w h1 h2 h3 h4 h5 h6
    unfold submit_kill_proof
    simp [ensure_not_ended, h1, h2, h3, h4, verify_zk_proof, h5, h6]
    split <;> simp [mapGet_mapSet]

/-- Witness for C8 (amended): player 2 self-kills in the concrete playing
game and ends up dead. -/
theorem kill_preconditions_witness :
    (submit_kill_proof trueVerifier playingStore 2 2 ⟨5, 9, []⟩).2 = none ∧
    Option.map Player.alive
      (mapGet (read_players (submit_kill_proof trueVerifier playingStore 2 2 ⟨5, 9, []⟩).1) 2) =
      some false :=
  (kill_preconditions_characterization trueVerifier playingStore).2.2 2 ⟨5, 9, []⟩
    ⟨0, 0, true, 0, 22, 2, 0, "Blu", "P2"⟩ 7 (by rfl) (by decide) (by rfl) (by rfl)
    (by rfl) (by rfl)

/-- C9: `join_game` succeeds only in phase Lobby and fails when the roster is
full, when the caller already has an entry, or when the supplied player hash
collides with an existing entry; every successful join appends exactly one
new entry with position (0,0), alive, zero tasks, and the all-zero vote
sentinel, growing the roster by exactly 1. -/
theorem join_game_characterization (s : Store) (p : Address) (color name : Symbol)
    (ph rh : Bytes32) :
    ((read_state s).phase ≠ "lobby" → ((join_game s p color name ph rh).2).isSome) ∧
    ((read_players s).length ≥ (read_config s).max_players →
      ((join_game s p color name ph rh).2).isSome) ∧
    ((mapGet (read_players s) p).isSome → ((join_game s p color name ph rh).2).isSome) ∧
    ((read_players s).any (fun q => q.2.player_hash == ph) = true →
      ((join_game s p color name ph rh).2).isSome) ∧
    ((join_game s p color name ph rh).2 = none →
      (read_state s).phase = "lobby" ∧
      read_players (join_game s p color name ph rh).1 =
        read_players s ++ [(p, ⟨0, 0, true, 0, ph, rh, 0, color, name⟩)] ∧
      (read_players (join_game s p color name ph rh).1).length =
        (read_players s).length + 1) := by
  refine ⟨?_, ?_, ?_, ?_, ?_⟩
  · intro h ; unfold join_game ; (repeat' split) <;> simp_all
  · intro h ; unfold join_game ; (repeat' split) <;> simp_all
  · intro h ; unfold join_game ; (repeat' split) <;> simp_all
  · intro h ; unfold join_game ; (repeat' split) <;> simp_all
  · unfold join_game
    (repeat' split) <;>
      (first
        | (intro hsucc ; simp at hsucc ; done)
        | (intro hsucc ; refine ⟨?_, ?_, ?_⟩ <;> simp_all [mapSet_eq_append]))

/-- Witness for C9: the first join on the uninitialized lobby appends the
expected fresh entry. -/
theorem join_game_witness :
    (read_state Store.empty).phase = "lobby" ∧
    read_players (join_game Store.empty 1 "Red" "P1" 11 1).1 =
      read_players Store.empty ++ [(1, ⟨0, 0, true, 0, 11, 1, 0, "Red", "P1"⟩)] ∧
    (read_players (join_game Store.empty 1 "Red" "P1" 11 1).1).length =
      (read_players Store.empty).length + 1 :=
  (join_game_characterization Store.empty 1 "Red" "P1" 11 1).2.2.2.2 (by decide)

/-- C10: the read operations are total functions of the storage (they cannot
panic), and on the completely empty storage — before `init` or any
configuration — `get_players` returns the empty roster, `get_config` the
defaults `max_players = 15`, `tasks_to_win = 40`, and `get_game_state` the
default state: phase Lobby, round 0, meeting inactive, one impostor, no
sabotage, winner none. -/
theorem read_operations_defaults :
    get_players Store.empty = [] ∧
    get_config Store.empty = ⟨15, 40⟩ ∧
    get_game_state Store.empty = ⟨"lobby", 0, false, 1, false, "none"⟩ := by decide

/-- Witness for C5: an accepted impostor-win proof in phase Playing ends the
game for the Impostor without touching the roster. -/
theorem impostor_win_proof_unconditional_witness :
    submit_impostor_win_proof trueVerifier playingStore 1 ⟨5, 9, []⟩ =
      (set_winner (consume_nullifier playingStore 9) "impost", none) ∧
    read_players (submit_impostor_win_proof trueVerifier playingStore 1 ⟨5, 9, []⟩).1 =
      read_players playingStore ∧
    (read_state (submit_impostor_win_proof trueVerifier playingStore 1 ⟨5, 9, []⟩).1).phase =
      "ended" ∧
    (read_state (submit_impostor_win_proof trueVerifier playingStore 1 ⟨5, 9, []⟩).1).winner =
      "impost" :=
  (impostor_win_proof_unconditional trueVerifier playingStore 1 ⟨5, 9, []⟩).2 7
    (by decide) (by decide) (by rfl) (by rfl)

/-- Witness for C2: an accepted impostor-win proof with nullifier 9 blocks a
second impostor-win submission with nullifier 9. -/
theorem consumed_nullifier_blocks_witness :
    ((applyOp trueVerifier (.opSubmitImpostorWinProof 2 ⟨5, 9, []⟩)
        (applySeq []
          (applyOp trueVerifier (.opSubmitImpostorWinProof 1 ⟨5, 9, []⟩) verifStore).1)).2).isSome :=
  consumed_nullifier_blocks_all_later_submissions trueVerifier
    (.opSubmitImpostorWinProof 1 ⟨5, 9, []⟩) verifStore 9 (by rfl) (by decide)
    [] trueVerifier (.opSubmitImpostorWinProof 2 ⟨5, 9, []⟩) (by rfl)

end AmongUs
